import Mathlib

/-!
Verification development for `deptyr` (src/deptyr.c), a terminal proxy:
a "head" process accepts connections, receives a pseudo-terminal master
descriptor, and proxies bytes between the controlling terminal and the pty;
an "attacher" process allocates a pty, sends the master descriptor to the
head, redirects its standard streams to the slave side, and execs a command.

The C program is shallowly embedded: every syscall outcome the code can
observe is an explicit parameter (an "environment"), and each C function
becomes a Lean function from those outcomes to its observable behaviour
(bytes written, control-flow decisions, diagnostics, process exit).
-/

namespace Deptyr

/-! ## writeall (src/deptyr.c lines 114-127)

`int writeall(int fd, const void *buf, ssize_t count)` loops
`while (count > 0)`, calling `write`; on `rv < 0` it retries when
`errno == EINTR` and otherwise returns the negative value; on success it
advances `buf` by `rv` and decreases `count`.

The model threads the sequence of `write` syscall outcomes explicitly.
`WriteStep.wrote n` is a return value `n ≥ 0` (a short write when
`n < count`); per the contract of write(2) a result larger than the
requested count cannot occur, so the model maps it to `none`
(an impossible trace), as it maps a trace that ends while the loop still
runs (the function would keep calling `write`). The result pairs the C
return value with the concatenation, in order, of the byte prefixes the
kernel accepted. -/

inductive WriteStep where
  | wrote (n : Nat)
  | wEintr
  | wErr
deriving DecidableEq, Repr

def writeall : List WriteStep → List UInt8 → Int → Option (Int × List UInt8)
  | [], _, count => if count ≤ 0 then some (0, []) else none
  | s :: rest, buf, count =>
    if count ≤ 0 then some (0, [])
    else
      match s with
      | WriteStep.wEintr => writeall rest buf count
      | WriteStep.wErr => some (-1, [])
      | WriteStep.wrote n =>
        if (n : Int) ≤ count then
          match writeall rest (List.drop n buf) (count - n) with
          | some (r, d) => some (r, List.take n buf ++ d)
          | none => none
        else none

/-- Position of the first failing write in an outcome trace. -/
def firstErrAt (steps : List WriteStep) (i : Nat) : Prop :=
  steps[i]? = some WriteStep.wErr ∧ ∀ j, j < i → steps[j]? ≠ some WriteStep.wErr


/-! ## resize_pty (src/deptyr.c lines 101-112)

`void resize_pty(int pty)` queries the controlling terminal's size with
`ioctl(0, TIOCGWINSZ, &sz)`. On failure — the code never inspects `errno`,
so every failure reason takes the same branch — it applies the fixed
`struct winsize defaultsize = {30, 80, 640, 480}` (fields in declaration
order: `ws_row`, `ws_col`, `ws_xpixel`, `ws_ypixel`) to the pty and prints
"Cannot set terminal size" only if even that `ioctl` fails. On success it
applies the queried size, discarding the result of the `TIOCSWINSZ` call
(line 111). No path aborts the process. -/

structure winsize where
  ws_row : Nat
  ws_col : Nat
  ws_xpixel : Nat
  ws_ypixel : Nat
deriving DecidableEq, Repr

def defaultsize : winsize := ⟨30, 80, 640, 480⟩

/-- Outcome of `ioctl(0, TIOCGWINSZ, &sz)`. The environment distinguishes
the failure reason (not-a-terminal vs. anything else) so that claims about
the reason can be stated; the code itself branches only on success vs.
failure. -/
inductive QueryRes where
  | success (sz : winsize)
  | failNotTty
  | failOther
deriving DecidableEq, Repr

structure ResizeEnv where
  query : QueryRes
  setFallbackOk : Bool
  setOk : Bool
deriving DecidableEq, Repr

/-- Observable behaviour of one `resize_pty` call: `applied` is the size
handed to `ioctl(pty, TIOCSWINSZ, ·)` (the call is always attempted on both
branches), `warned` whether "Cannot set terminal size" was printed. There is
no fatal outcome: `resize_pty` never exits the process. -/
structure ResizeResult where
  applied : Option winsize
  warned : Bool
deriving DecidableEq, Repr

def resize_pty (env : ResizeEnv) : ResizeResult :=
  match env.query with
  | QueryRes.success sz => ⟨some sz, false⟩
  | QueryRes.failNotTty => ⟨some defaultsize, !env.setFallbackOk⟩
  | QueryRes.failOther => ⟨some defaultsize, !env.setFallbackOk⟩

/-! ## do_proxy (src/deptyr.c lines 135-185)

`void do_proxy(int pty)` blocks SIGWINCH (returning early if `sigprocmask`
fails), installs the `do_winch` handler (which only sets the flag
`winch_happened`), performs one initial `resize_pty`, then loops:

1. if `winch_happened`, clear it and `resize_pty` (lines 158-161);
2. `pselect` on fds 0 and `pty` with SIGWINCH unblocked: `EINTR` restarts
   the loop, any other failure returns (lines 162-171);
3. if fd 0 is ready: `read(0, buf, 4096)`; a negative count returns; the
   bytes are passed to `writeall(pty, ...)` whose result is DISCARDED
   (lines 172-177);
4. if `pty` is ready: `read(pty, ...)`; `count <= 0` returns; the bytes are
   passed to `writeall(1, ...)`, result again discarded (lines 178-183).

One loop iteration is driven by an `IterEvent` carrying the state of the
`winch_happened` flag at the top of the iteration, the environment a
`resize_pty` call would see, and the `pselect` outcome with the read/write
syscall outcomes for whichever descriptors are ready. -/

/-- Outcome of one `read` call: `rOk bytes` is a return of `bytes.length ≥ 0`
bytes, `rErr` a negative return. -/
inductive ReadRes where
  | rOk (bytes : List UInt8)
  | rErr
deriving DecidableEq, Repr

/-- Which descriptors `pselect` marked ready, with the syscall outcomes the
iteration will consume on each: the `read` result and the `write` outcome
trace for the subsequent `writeall`. -/
structure SelectReady where
  stdinSide : Option (ReadRes × List WriteStep)
  ptySide : Option (ReadRes × List WriteStep)
deriving DecidableEq, Repr

inductive SelectOutcome where
  | sEintr
  | sErr
  | sReady (rd : SelectReady)
deriving DecidableEq, Repr

structure IterEvent where
  winch : Bool
  resizeEnv : ResizeEnv
  sel : SelectOutcome
deriving DecidableEq, Repr

/-- Why `do_proxy` returned to its caller. -/
inductive Termination where
  | sigmaskFail
  | selectFail
  | stdinFail
  | ptyClosed
deriving DecidableEq, Repr

/-- Observable actions of one loop iteration: the resize performed at the
top (if the winch flag was set), and the bytes delivered to the pty master
and to stdout. -/
structure IterTrace where
  resized : Option ResizeResult
  toPty : List UInt8
  toStdout : List UInt8
deriving DecidableEq, Repr

inductive IterOut where
  | cont (t : IterTrace)
  | exit (reason : Termination) (t : IterTrace)
  | stuck
deriving DecidableEq, Repr

/-- Lines 178-183: the pty-master side of an iteration, reached after the
stdin side (if ready) was handled without returning. `tr` carries what the
iteration already did. -/
def ptyStep (p : Option (ReadRes × List WriteStep)) (tr : IterTrace) : IterOut :=
  match p with
  | none => IterOut.cont tr
  | some (ReadRes.rErr, _) => IterOut.exit Termination.ptyClosed tr
  | some (ReadRes.rOk [], _) => IterOut.exit Termination.ptyClosed tr
  | some (ReadRes.rOk (b :: bs), ws) =>
    match writeall ws (b :: bs) ((b :: bs).length : Int) with
    | none => IterOut.stuck
    | some (_, delivered) => IterOut.cont ⟨tr.resized, tr.toPty, delivered⟩

/-- One iteration of the `while (1)` loop, lines 157-184. -/
def doIter (ev : IterEvent) : IterOut :=
  let rz := if ev.winch then some (resize_pty ev.resizeEnv) else none
  match ev.sel with
  | SelectOutcome.sEintr => IterOut.cont ⟨rz, [], []⟩
  | SelectOutcome.sErr => IterOut.exit Termination.selectFail ⟨rz, [], []⟩
  | SelectOutcome.sReady rd =>
    match rd.stdinSide with
    | none => ptyStep rd.ptySide ⟨rz, [], []⟩
    | some (ReadRes.rErr, _) => IterOut.exit Termination.stdinFail ⟨rz, [], []⟩
    | some (ReadRes.rOk bytes, ws) =>
      match writeall ws bytes (bytes.length : Int) with
      | none => IterOut.stuck
      | some (_, delivered) => ptyStep rd.ptySide ⟨rz, delivered, []⟩

/-- Result of running `do_proxy` against a finite trace of iteration
events: `returned r` means the function returned to `main` for reason `r`;
`running` means the trace ended with the loop still active; `stuck` means a
`writeall` inside the loop exhausted its outcome trace. -/
inductive ProxyResult where
  | returned (reason : Termination)
  | running
  | stuck
deriving DecidableEq, Repr

def doProxyLoop : List IterEvent → ProxyResult
  | [] => ProxyResult.running
  | ev :: rest =>
    match doIter ev with
    | IterOut.cont _ => doProxyLoop rest
    | IterOut.exit reason _ => ProxyResult.returned reason
    | IterOut.stuck => ProxyResult.stuck

/-- `do_proxy`, lines 135-185: an initial `sigprocmask` failure prints and
returns (lines 147-150); then the SIGWINCH handler is installed and an
initial `resize_pty` runs (its result has no control-flow effect), and the
loop is entered. -/
def do_proxy (sigprocmaskOk : Bool) (initResize : ResizeEnv)
    (evs : List IterEvent) : ProxyResult :=
  if sigprocmaskOk = false then ProxyResult.returned Termination.sigmaskFail
  else
    let _ := resize_pty initResize
    doProxyLoop evs

/-! ## setup_raw (src/deptyr.c lines 89-99)

`void setup_raw(struct termios *save)`: if `tcgetattr(0, save)` fails it
prints "Unable to read terminal attributes" and RETURNS NORMALLY — the
function is `void`, no error reaches the caller, and `*save` is left
unwritten. Otherwise it derives a raw configuration with `cfmakeraw` and
applies it; if `tcsetattr` fails it calls `die` (process exit). -/

inductive SetupRawOut where
  | noSnapshot
  | rawEntered
  | fatal
deriving DecidableEq, Repr

def setup_raw (tcgetattrOk rawApplyOk : Bool) : SetupRawOut :=
  if tcgetattrOk = false then SetupRawOut.noSnapshot
  else if rawApplyOk then SetupRawOut.rawEntered
  else SetupRawOut.fatal

/-- Whether `setup_raw` left a valid snapshot in `saved_termios`. -/
def snapValid : SetupRawOut → Bool
  | SetupRawOut.rawEntered => true
  | _ => false

/-! ## The head's restore loop and accept cycle (src/deptyr.c lines 239-260)

After `do_proxy` returns, `main` runs
`do { errno = 0; if (tcsetattr(0, TCSANOW, &saved_termios) && errno != EINTR)
die(...); } while (errno == EINTR);` and then `close(pty)` before the next
`accept`. One `tcsetattr` call either succeeds, fails with `EINTR`, or
fails otherwise. -/

inductive TcsetRes where
  | ok
  | eintr
  | err
deriving DecidableEq, Repr

/-- The `do`/`while` restore loop: returns `(number of successful
applications of the snapshot, whether the process died)`; `none` when the
outcome trace ends while the loop is still retrying `EINTR` failures. -/
def restoreLoop : List TcsetRes → Option (Nat × Bool)
  | [] => none
  | TcsetRes.ok :: _ => some (1, false)
  | TcsetRes.eintr :: rest => restoreLoop rest
  | TcsetRes.err :: _ => some (0, true)

inductive DieStage where
  | recvFail
  | closeFail
  | rawSetFail
  | restoreFail
deriving DecidableEq, Repr

/-- Outcome of one accept cycle of the head: `next reason restored snap`
means the proxy session ended for `reason`, the restore loop performed
`restored` successful snapshot applications, the pty descriptor was closed,
and control returned to `accept` for the next connection; `snap` records
whether the restored snapshot was the one actually captured (false when
`tcgetattr` had failed and `saved_termios` was never written). -/
inductive CycleOutcome where
  | died (s : DieStage)
  | next (reason : Termination) (restored : Nat) (snap : Bool)
  | proxying
  | stuckWrite
  | restoring
deriving DecidableEq, Repr

/-- Lines 253-259: the unconditional restore-then-close epilogue every
return from `do_proxy` falls into. -/
def restoreAndClose (reason : Termination) (snap : Bool)
    (rs : List TcsetRes) : CycleOutcome :=
  match restoreLoop rs with
  | none => CycleOutcome.restoring
  | some (_, true) => CycleOutcome.died DieStage.restoreFail
  | some (n, false) => CycleOutcome.next reason n snap

/-- Environment of one head accept cycle (lines 242-259): outcomes of
`recv_file_descriptor`, `close(connection)`, the two `termios` calls in
`setup_raw`, and everything `do_proxy` consumes, plus the `tcsetattr`
outcomes of the restore loop. -/
structure CycleEnv where
  recvOk : Bool
  closeConnOk : Bool
  tcgetattrOk : Bool
  rawApplyOk : Bool
  sigprocmaskOk : Bool
  initResize : ResizeEnv
  evs : List IterEvent
  restores : List TcsetRes
deriving DecidableEq, Repr

/-- One iteration of the head's `while (0 <= (connection = accept(...)))`
body. `recv_file_descriptor < 0` and a failed `close(connection)` both
`die`; then `setup_raw`, `do_proxy`, the restore loop, `close(pty)`. -/
def headCycle (env : CycleEnv) : CycleOutcome :=
  if env.recvOk = false then CycleOutcome.died DieStage.recvFail
  else if env.closeConnOk = false then CycleOutcome.died DieStage.closeFail
  else
    match setup_raw env.tcgetattrOk env.rawApplyOk with
    | SetupRawOut.fatal => CycleOutcome.died DieStage.rawSetFail
    | sr =>
      match do_proxy env.sigprocmaskOk env.initResize env.evs with
      | ProxyResult.running => CycleOutcome.proxying
      | ProxyResult.stuck => CycleOutcome.stuckWrite
      | ProxyResult.returned reason =>
        restoreAndClose reason (snapValid sr) env.restores

/-! ## Option processing in main (src/deptyr.c lines 195-237)

`int socket;` is declared uninitialized (line 202) and assigned only in the
`'s'` branch (`socket = connect_server(optarg)`) and the `'H'` branch
(`socket = create_server(optarg)`, which also sets `act_as_proxy = 1`).
`'h'` prints usage and returns 0; an unrecognized option returns 1; `'V'`
sets `verbose`. After the loop, a missing command in non-proxy mode returns
1. The head branch then calls `accept(socket, ...)`; the attacher branch
calls `send_file_descriptor(socket, pty)`.

The model tracks the `socket` variable as an `Option`: `none` is the
never-assigned (indeterminate) state. -/

inductive SocketVal where
  | connectServer (addr : String)
  | createServer (addr : String)
deriving DecidableEq, Repr

inductive Opt where
  | h
  | V
  | s (addr : String)
  | H (addr : String)
  | unknown
deriving DecidableEq, Repr

structure MainState where
  verboseFlag : Bool
  socketVar : Option SocketVal
  act_as_proxy : Bool
deriving DecidableEq, Repr

/-- How far `main` gets and which value of `socket` the reached branch
reads: `headAccept v` is the `accept(socket, ...)` loop entered with
`socket = v`; `attacherSend v` is the attacher branch calling
`send_file_descriptor(socket, pty)` with `socket = v`; `v = none` means the
variable was never assigned (the read is of an indeterminate value). -/
inductive MainBehavior where
  | exitUsage0
  | exitUsage1
  | noCommand
  | headAccept (socketVal : Option SocketVal)
  | attacherSend (socketVal : Option SocketVal)
deriving DecidableEq, Repr

inductive ParseResult where
  | earlyExit (b : MainBehavior)
  | done (st : MainState)
deriving DecidableEq, Repr

def parseOpts : List Opt → MainState → ParseResult
  | [], st => ParseResult.done st
  | Opt.h :: _, _ => ParseResult.earlyExit MainBehavior.exitUsage0
  | Opt.V :: rest, st =>
    parseOpts rest ⟨true, st.socketVar, st.act_as_proxy⟩
  | Opt.s a :: rest, st =>
    parseOpts rest ⟨st.verboseFlag, some (SocketVal.connectServer a), st.act_as_proxy⟩
  | Opt.H a :: rest, st =>
    parseOpts rest ⟨st.verboseFlag, some (SocketVal.createServer a), true⟩
  | Opt.unknown :: _, _ => ParseResult.earlyExit MainBehavior.exitUsage1

/-- `main` up to the point where the selected branch first reads `socket`
(lines 195-242 head side, 195-274 attacher side). `cmd` is the list of
non-option arguments (`argv[optind..]`). -/
def mainModel (opts : List Opt) (cmd : List String) : MainBehavior :=
  match parseOpts opts ⟨false, none, false⟩ with
  | ParseResult.earlyExit b => b
  | ParseResult.done st =>
    if st.act_as_proxy = false ∧ cmd = [] then MainBehavior.noCommand
    else if st.act_as_proxy then MainBehavior.headAccept st.socketVar
    else MainBehavior.attacherSend st.socketVar

/-! ## The attacher branch (src/deptyr.c lines 261-294)

After `get_pt`, `unlockpt`, `grantpt` and `send_file_descriptor` (each of
which `die`s on failure), the code runs — with NO checks on any return
value — `f = open(ptyname, O_RDONLY); dup2(f, 0); close(f);
f = open(ptyname, O_WRONLY); dup2(f, 1); dup2(f, 2); close(f);` and then
`close(pty); execvp(argv[optind], ...)`. A standard stream ends up
redirected to the slave only if both its `open` and its `dup2` succeeded;
`execvp` is reached regardless. -/

structure AttachEnv where
  getPtOk : Bool
  unlockOk : Bool
  grantOk : Bool
  sendOk : Bool
  openInOk : Bool
  dupInOk : Bool
  openOutOk : Bool
  dupOutOk : Bool
  dupErrOk : Bool
  execOk : Bool
deriving DecidableEq, Repr

inductive AttachStage where
  | allocPt
  | unlockPt
  | grantPt
  | sendFd
deriving DecidableEq, Repr

/-- `execAttempted r0 r1 r2 ok`: `execvp` was called with stdin/stdout/
stderr redirected to the slave iff `r0`/`r1`/`r2`; `ok = false` means
`execvp` itself failed, after which `die("execvp failed")` runs. -/
inductive AttachOutcome where
  | died (s : AttachStage)
  | execAttempted (stdinRedir stdoutRedir stderrRedir execSucceeded : Bool)
deriving DecidableEq, Repr

def attacher (env : AttachEnv) : AttachOutcome :=
  if env.getPtOk = false then AttachOutcome.died AttachStage.allocPt
  else if env.unlockOk = false then AttachOutcome.died AttachStage.unlockPt
  else if env.grantOk = false then AttachOutcome.died AttachStage.grantPt
  else if env.sendOk = false then AttachOutcome.died AttachStage.sendFd
  else AttachOutcome.execAttempted (env.openInOk && env.dupInOk)
    (env.openOutOk && env.dupOutOk) (env.openOutOk && env.dupErrOk) env.execOk

/-! ## Helper lemmas -/

lemma firstErrAt_cons (s : WriteStep) (steps : List WriteStep) (i : Nat)
    (hs : s ≠ WriteStep.wErr) (h : firstErrAt steps i) :
    firstErrAt (s :: steps) (i + 1) := by
  obtain ⟨h1, h2⟩ := h
  refine ⟨by simpa using h1, ?_⟩
  intro j hj
  cases j with
  | zero => simpa using hs
  | succ k =>
    have hk : k < i := by omega
    simpa using h2 k hk

/-- Main behavioural lemma for `writeall`: on any syscall trace that lets the
function return, either it returns `0` having delivered exactly the first
`count` bytes of the buffer in order, or it returns `-1` at the first failing
write, having delivered a proper prefix of those bytes. -/
lemma writeall_main (steps : List WriteStep) (buf : List UInt8) (count : Int)
    (r : Int) (d : List UInt8)
    (hc : 0 ≤ count) (hlen : count.toNat ≤ buf.length)
    (h : writeall steps buf count = some (r, d)) :
    (r = 0 ∧ d = List.take count.toNat buf ∧ d.length = count.toNat) ∨
    (r = -1 ∧ (∃ u, d ++ u = List.take count.toNat buf) ∧
      (d.length : Int) < count ∧ ∃ i, firstErrAt steps i) := by
  induction steps generalizing buf count r d with
  | nil =>
    simp only [writeall] at h
    split at h
    · rename_i hle
      have hc0 : count = 0 := le_antisymm hle hc
      subst hc0
      simp only [Option.some.injEq, Prod.mk.injEq] at h
      obtain ⟨hr, hd⟩ := h
      exact Or.inl ⟨hr.symm, by simp [← hd], by simp [← hd]⟩
    · exact absurd h (by simp)
  | cons s rest ih =>
    cases s with
    | wEintr =>
      simp only [writeall] at h
      split at h
      · rename_i hle
        have hc0 : count = 0 := le_antisymm hle hc
        subst hc0
        simp only [Option.some.injEq, Prod.mk.injEq] at h
        obtain ⟨hr, hd⟩ := h
        exact Or.inl ⟨hr.symm, by simp [← hd], by simp [← hd]⟩
      · rcases ih buf count r d hc hlen h with h1 | ⟨h1, h2, h3, i, hi⟩
        · exact Or.inl h1
        · exact Or.inr ⟨h1, h2, h3, i + 1, firstErrAt_cons _ _ _ (by simp) hi⟩
    | wErr =>
      simp only [writeall] at h
      split at h
      · rename_i hle
        have hc0 : count = 0 := le_antisymm hle hc
        subst hc0
        simp only [Option.some.injEq, Prod.mk.injEq] at h
        obtain ⟨hr, hd⟩ := h
        exact Or.inl ⟨hr.symm, by simp [← hd], by simp [← hd]⟩
      · rename_i hpos
        simp only [Option.some.injEq, Prod.mk.injEq] at h
        obtain ⟨hr, hd⟩ := h
        refine Or.inr ⟨hr.symm, ⟨List.take count.toNat buf, by simp [← hd]⟩, ?_, 0, ?_⟩
        · simp [← hd]; omega
        · exact ⟨by simp, by omega⟩
    | wrote n =>
      simp only [writeall] at h
      split at h
      · rename_i hle
        have hc0 : count = 0 := le_antisymm hle hc
        subst hc0
        simp only [Option.some.injEq, Prod.mk.injEq] at h
        obtain ⟨hr, hd⟩ := h
        exact Or.inl ⟨hr.symm, by simp [← hd], by simp [← hd]⟩
      · rename_i hpos
        have hcount : 0 < count := by omega
        split at h
        · rename_i hn
          have hn' : n ≤ count.toNat := by omega
          have hrec : 0 ≤ count - n := by omega
          have hlen' : (count - n).toNat ≤ (List.drop n buf).length := by
            simp only [List.length_drop]
            omega
          split at h
          · rename_i r' d' hcall
            simp only [Option.some.injEq, Prod.mk.injEq] at h
            obtain ⟨hr, hd⟩ := h
            subst hr
            have htake : List.take count.toNat buf =
                List.take n buf ++ List.take (count - n).toNat (List.drop n buf) := by
              have hsplit : count.toNat = n + (count - n).toNat := by omega
              rw [hsplit, List.take_add]
            have hlentn : (List.take n buf).length = n := by
              simp only [List.length_take]
              omega
            rcases ih (List.drop n buf) (count - n) r' d' hrec hlen' hcall with
              ⟨h1, h2, h3⟩ | ⟨h1, ⟨u, hu⟩, h3, i, hi⟩
            · refine Or.inl ⟨h1, ?_, ?_⟩
              · rw [← hd, h2, htake]
              · rw [← hd]
                simp only [List.length_append, hlentn, h3]
                omega
            · refine Or.inr ⟨h1, ⟨u, ?_⟩, ?_, i + 1,
                firstErrAt_cons _ _ _ (by simp) hi⟩
              · rw [← hd, htake, List.append_assoc, hu]
              · rw [← hd]
                simp only [List.length_append, hlentn]
                push_cast
                omega
          · exact absurd h (by simp)
        · exact absurd h (by simp)

/-- Retrying: a write interrupted by a signal is transparently reissued. -/
lemma writeall_eintr_retry (steps : List WriteStep) (buf : List UInt8)
    (count : Int) (hc : 0 < count) :
    writeall (WriteStep.wEintr :: steps) buf count = writeall steps buf count := by
  simp only [writeall, if_neg (by omega : ¬ count ≤ 0)]

/-- A zero-byte `writeall` performs no write calls and succeeds. -/
lemma writeall_zero (steps : List WriteStep) (buf : List UInt8) :
    writeall steps buf 0 = some (0, []) := by
  cases steps <;> simp [writeall]

/-- If the restore loop exits without dying, the snapshot was applied
exactly once. -/
lemma restoreLoop_success (rs : List TcsetRes) (n : Nat)
    (h : restoreLoop rs = some (n, false)) : n = 1 := by
  induction rs with
  | nil => exact absurd h (by simp [restoreLoop])
  | cons t rest ih =>
    cases t with
    | ok => simpa [restoreLoop, eq_comm] using congrArg (fun o => o.map Prod.fst) h
    | eintr => exact ih (by simpa [restoreLoop] using h)
    | err => simp [restoreLoop] at h

/-- If the restore loop dies, no application succeeded and a genuine
(non-`EINTR`) `tcsetattr` failure occurred. -/
lemma restoreLoop_died (rs : List TcsetRes) (n : Nat)
    (h : restoreLoop rs = some (n, true)) : n = 0 ∧ TcsetRes.err ∈ rs := by
  induction rs with
  | nil => exact absurd h (by simp [restoreLoop])
  | cons t rest ih =>
    cases t with
    | ok => simp [restoreLoop] at h
    | eintr =>
      obtain ⟨h1, h2⟩ := ih (by simpa [restoreLoop] using h)
      exact ⟨h1, by simp [h2]⟩
    | err =>
      simp only [restoreLoop, Option.some.injEq, Prod.mk.injEq] at h
      exact ⟨h.1.symm, by simp⟩

/-- A run of the option loop seeing only `-V` flags never touches `socket`
or `act_as_proxy`. -/
lemma parseOpts_allV (opts : List Opt) (st : MainState)
    (h : ∀ o ∈ opts, o = Opt.V) :
    ∃ v, parseOpts opts st = ParseResult.done ⟨v, st.socketVar, st.act_as_proxy⟩ := by
  induction opts generalizing st with
  | nil => exact ⟨st.verboseFlag, by cases st; rfl⟩
  | cons o rest ih =>
    have ho : o = Opt.V := h o (by simp)
    subst ho
    obtain ⟨v, hv⟩ := ih ⟨true, st.socketVar, st.act_as_proxy⟩
      (fun o hm => h o (by simp [hm]))
    exact ⟨v, by simpa [parseOpts] using hv⟩

/-! ## Claim theorems -/

/-- C8: for every descriptor, buffer and non-negative byte count, `writeall`
returns 0 only after exactly `count` bytes were written in order (resuming
after short writes and retrying writes interrupted by signals), and returns
a negative value (-1) on the first write error other than an interruption,
possibly after a proper prefix was already delivered. -/
theorem c8_writeall_correct (steps : List WriteStep) (buf : List UInt8)
    (count r : Int) (d : List UInt8)
    (hc : 0 ≤ count) (hlen : count.toNat ≤ buf.length)
    (h : writeall steps buf count = some (r, d)) :
    (r = 0 → d = List.take count.toNat buf ∧ d.length = count.toNat) ∧
    (r ≠ 0 → r = -1 ∧ (∃ u, d ++ u = List.take count.toNat buf) ∧
      (d.length : Int) < count ∧ ∃ i, firstErrAt steps i) ∧
    (∀ rest b c, 0 < c →
      writeall (WriteStep.wEintr :: rest) b c = writeall rest b c) := by
  rcases writeall_main steps buf count r d hc hlen h with
    ⟨h1, h2, h3⟩ | ⟨h1, h2, h3, h4⟩
  · exact ⟨fun _ => ⟨h2, h3⟩, fun hr => absurd h1 hr,
      fun rest b c hcpos => writeall_eintr_retry rest b c hcpos⟩
  · refine ⟨fun hr => absurd (hr ▸ h1) (by norm_num), fun _ => ⟨h1, h2, h3, h4⟩,
      fun rest b c hcpos => writeall_eintr_retry rest b c hcpos⟩

/-- C8 witness: a short write of 1 byte followed by an interrupted write and
a write of the remaining 2 bytes delivers [1, 2, 3] exactly. -/
theorem c8_witness :
    (((0 : Int) = 0 →
      [(1 : UInt8), 2, 3] = List.take ((3 : Int)).toNat [(1 : UInt8), 2, 3] ∧
      ([(1 : UInt8), 2, 3]).length = ((3 : Int)).toNat) ∧
    ((0 : Int) ≠ 0 → (0 : Int) = -1 ∧
      (∃ u, [(1 : UInt8), 2, 3] ++ u = List.take ((3 : Int)).toNat [(1 : UInt8), 2, 3]) ∧
      (([(1 : UInt8), 2, 3]).length : Int) < 3 ∧
      ∃ i, firstErrAt [WriteStep.wrote 1, WriteStep.wEintr, WriteStep.wrote 2] i) ∧
    (∀ rest b c, 0 < c →
      writeall (WriteStep.wEintr :: rest) b c = writeall rest b c)) :=
  c8_writeall_correct [WriteStep.wrote 1, WriteStep.wEintr, WriteStep.wrote 2]
    [1, 2, 3] 3 0 [1, 2, 3] (by decide) (by decide) (by decide)

/-- C1 counterexample: with one byte read from stdin and the very first
`write` to the pty failing with a non-`EINTR` error, `writeall` returns -1,
yet the loop iteration CONTINUES (the result of `writeall` on line 176 is
discarded): the session does not transition to Terminated, contrary to the
claim. -/
theorem c1_counterexample :
    writeall [WriteStep.wErr] [(65 : UInt8)] 1 = some (-1, []) ∧
    doIter ⟨false, ⟨QueryRes.failNotTty, true, true⟩,
        SelectOutcome.sReady ⟨some (ReadRes.rOk [(65 : UInt8)], [WriteStep.wErr]), none⟩⟩ =
      IterOut.cont ⟨none, [], []⟩ := by
  exact ⟨by decide, by decide⟩

/-- C1 (amended): after a successful read from the controlling terminal's
input the bytes are handed to `writeall`, which retries writes interrupted
by signals and on success has delivered all bytes in full and in order; a
non-interrupt write failure makes `writeall` abandon the remainder after a
delivered prefix, but the Proxy Loop IGNORES the result either way: the
iteration continues, the session is not terminated by a write failure. -/
theorem c1_write_failure_continues (rz : ResizeEnv) (bytes : List UInt8)
    (ws : List WriteStep) (r : Int) (d : List UInt8)
    (h : writeall ws bytes (bytes.length : Int) = some (r, d)) :
    doIter ⟨false, rz, SelectOutcome.sReady ⟨some (ReadRes.rOk bytes, ws), none⟩⟩ =
      IterOut.cont ⟨none, d, []⟩ ∧
    (r = 0 → d = bytes) := by
  constructor
  · simp [doIter, ptyStep, h]
  · intro hr
    subst hr
    rcases writeall_main ws bytes (bytes.length : Int) 0 d (by positivity)
        (by simp) h with ⟨_, h2, _⟩ | ⟨h1, _, _, _⟩
    · simpa using h2
    · exact absurd h1.symm (by norm_num)

/-- C1 witness: a successful single write delivers the byte and the
iteration continues. -/
theorem c1_witness :
    doIter ⟨false, ⟨QueryRes.failNotTty, true, true⟩,
        SelectOutcome.sReady ⟨some (ReadRes.rOk [(7 : UInt8)], [WriteStep.wrote 1]), none⟩⟩ =
      IterOut.cont ⟨none, [(7 : UInt8)], []⟩ ∧
    ((0 : Int) = 0 → [(7 : UInt8)] = [(7 : UInt8)]) :=
  c1_write_failure_continues ⟨QueryRes.failNotTty, true, true⟩ [(7 : UInt8)]
    [WriteStep.wrote 1] 0 [(7 : UInt8)] (by decide)

/-- C9: a zero-byte read from the controlling terminal's input (EOF on
stdin) does not terminate the Proxy Loop: the iteration writes nothing to
the pty and continues; the stdin side exits the loop only when `read`
returns a negative value. -/
theorem c9_stdin_eof_continues :
    (∀ (rz : ResizeEnv) (ws : List WriteStep),
      doIter ⟨false, rz, SelectOutcome.sReady ⟨some (ReadRes.rOk [], ws), none⟩⟩ =
        IterOut.cont ⟨none, [], []⟩) ∧
    (∀ (rz : ResizeEnv) (ws : List WriteStep),
      doIter ⟨false, rz, SelectOutcome.sReady ⟨some (ReadRes.rErr, ws), none⟩⟩ =
        IterOut.exit Termination.stdinFail ⟨none, [], []⟩) := by
  constructor
  · intro rz ws
    simp [doIter, ptyStep, writeall_zero]
  · intro rz ws
    simp [doIter]

/-- C5: a zero-byte read or a read error on the pseudo-terminal master
makes the Proxy Loop exit within that iteration; in the head this
termination is not an error — the cycle proceeds to restore the terminal,
close the pty descriptor, and accept the next connection. -/
theorem c5_pty_close_terminates :
    (∀ (rz : ResizeEnv) (ws : List WriteStep),
      doIter ⟨false, rz, SelectOutcome.sReady ⟨none, some (ReadRes.rOk [], ws)⟩⟩ =
        IterOut.exit Termination.ptyClosed ⟨none, [], []⟩) ∧
    (∀ (rz : ResizeEnv) (ws : List WriteStep),
      doIter ⟨false, rz, SelectOutcome.sReady ⟨none, some (ReadRes.rErr, ws)⟩⟩ =
        IterOut.exit Termination.ptyClosed ⟨none, [], []⟩) ∧
    (∀ env : CycleEnv, env.recvOk = true → env.closeConnOk = true →
      env.tcgetattrOk = true → env.rawApplyOk = true →
      do_proxy env.sigprocmaskOk env.initResize env.evs =
        ProxyResult.returned Termination.ptyClosed →
      restoreLoop env.restores = some (1, false) →
      headCycle env = CycleOutcome.next Termination.ptyClosed 1 true) := by
  refine ⟨fun rz ws => by simp [doIter, ptyStep], fun rz ws => by simp [doIter, ptyStep], ?_⟩
  intro env h1 h2 h3 h4 h5 h6
  simp [headCycle, h1, h2, h3, h4, h5, setup_raw, snapValid, restoreAndClose, h6]

/-- C5 witness: a head cycle whose single loop iteration sees a zero-byte
pty read ends with the terminal restored once, the pty closed, and the head
back in `accept`. -/
theorem c5_witness :
    headCycle ⟨true, true, true, true, true, ⟨QueryRes.failNotTty, true, true⟩,
        [⟨false, ⟨QueryRes.failNotTty, true, true⟩,
          SelectOutcome.sReady ⟨none, some (ReadRes.rOk [], [])⟩⟩],
        [TcsetRes.ok]⟩ =
      CycleOutcome.next Termination.ptyClosed 1 true :=
  c5_pty_close_terminates.2.2
    ⟨true, true, true, true, true, ⟨QueryRes.failNotTty, true, true⟩,
      [⟨false, ⟨QueryRes.failNotTty, true, true⟩,
        SelectOutcome.sReady ⟨none, some (ReadRes.rOk [], [])⟩⟩],
      [TcsetRes.ok]⟩
    rfl rfl rfl rfl (by decide) (by decide)

/-- C2: in every head cycle in which raw mode was entered, every return of
`do_proxy` — normal pty close, stdin read error, select failure, or the
early `sigprocmask` error return — falls into the restore epilogue; the
restore loop applies the snapshot exactly once when it succeeds, retries
transparently on `EINTR`, and dies (reports) only when a non-interrupt
`tcsetattr` failure occurred. -/
theorem c2_restore_exactly_once (env : CycleEnv) (reason : Termination)
    (h1 : env.recvOk = true) (h2 : env.closeConnOk = true)
    (h3 : env.tcgetattrOk = true) (h4 : env.rawApplyOk = true)
    (h5 : do_proxy env.sigprocmaskOk env.initResize env.evs =
      ProxyResult.returned reason) :
    headCycle env = restoreAndClose reason true env.restores ∧
    (∀ rs n, restoreLoop rs = some (n, false) → n = 1) ∧
    (∀ rs, restoreLoop (TcsetRes.eintr :: rs) = restoreLoop rs) ∧
    (∀ rs n, restoreLoop rs = some (n, true) → n = 0 ∧ TcsetRes.err ∈ rs) := by
  refine ⟨?_, fun rs n h => restoreLoop_success rs n h,
    fun rs => by simp [restoreLoop], fun rs n h => restoreLoop_died rs n h⟩
  simp [headCycle, h1, h2, h3, h4, h5, setup_raw, snapValid]

/-- C2 witness: a session ending in a stdin read error, with the restoring
`tcsetattr` interrupted once before succeeding, restores exactly once. -/
theorem c2_witness :
    (headCycle ⟨true, true, true, true, true, ⟨QueryRes.failNotTty, true, true⟩,
        [⟨false, ⟨QueryRes.failNotTty, true, true⟩,
          SelectOutcome.sReady ⟨some (ReadRes.rErr, []), none⟩⟩],
        [TcsetRes.eintr, TcsetRes.ok]⟩ =
      restoreAndClose Termination.stdinFail true [TcsetRes.eintr, TcsetRes.ok] ∧
    (∀ rs n, restoreLoop rs = some (n, false) → n = 1) ∧
    (∀ rs, restoreLoop (TcsetRes.eintr :: rs) = restoreLoop rs) ∧
    (∀ rs n, restoreLoop rs = some (n, true) → n = 0 ∧ TcsetRes.err ∈ rs)) :=
  c2_restore_exactly_once
    ⟨true, true, true, true, true, ⟨QueryRes.failNotTty, true, true⟩,
      [⟨false, ⟨QueryRes.failNotTty, true, true⟩,
        SelectOutcome.sReady ⟨some (ReadRes.rErr, []), none⟩⟩],
      [TcsetRes.eintr, TcsetRes.ok]⟩
    Termination.stdinFail rfl rfl rfl rfl (by decide)

/-- C3 (code bug): when `tcgetattr` fails, `setup_raw` only prints a
message and returns normally — no error condition reaches the caller — and
the head does NOT abort: the proxy session runs anyway, and on its way out
the restore epilogue applies the never-written `saved_termios` snapshot
(`snap = false`), exactly the un-snapshotted continuation the claim says is
prevented. -/
theorem c3_no_abort_on_tcgetattr_failure (env : CycleEnv) (reason : Termination)
    (h1 : env.recvOk = true) (h2 : env.closeConnOk = true)
    (h3 : env.tcgetattrOk = false)
    (h5 : do_proxy env.sigprocmaskOk env.initResize env.evs =
      ProxyResult.returned reason) :
    setup_raw env.tcgetattrOk env.rawApplyOk = SetupRawOut.noSnapshot ∧
    headCycle env = restoreAndClose reason false env.restores := by
  constructor
  · simp [setup_raw, h3]
  · simp [headCycle, h1, h2, h3, h5, setup_raw, snapValid]

/-- C3 witness: a concrete head cycle whose `tcgetattr` fails still runs the
proxy session to completion and then restores an invalid snapshot. -/
theorem c3_witness :
    (setup_raw false true = SetupRawOut.noSnapshot ∧
    headCycle ⟨true, true, false, true, true, ⟨QueryRes.failNotTty, true, true⟩,
        [⟨false, ⟨QueryRes.failNotTty, true, true⟩,
          SelectOutcome.sReady ⟨none, some (ReadRes.rOk [], [])⟩⟩],
        [TcsetRes.ok]⟩ =
      restoreAndClose Termination.ptyClosed false [TcsetRes.ok]) :=
  c3_no_abort_on_tcgetattr_failure
    ⟨true, true, false, true, true, ⟨QueryRes.failNotTty, true, true⟩,
      [⟨false, ⟨QueryRes.failNotTty, true, true⟩,
        SelectOutcome.sReady ⟨none, some (ReadRes.rOk [], [])⟩⟩],
      [TcsetRes.ok]⟩
    Termination.ptyClosed rfl rfl rfl (by decide)

/-- C4 counterexample: when the size query fails for a reason other than
"not a terminal", `resize_pty` does NOT skip — it applies the fallback size
to the pty (the code never inspects `errno`, both failure reasons take the
same branch). -/
theorem c4_counterexample :
    resize_pty ⟨QueryRes.failOther, true, true⟩ = ⟨some defaultsize, false⟩ ∧
    (resize_pty ⟨QueryRes.failOther, true, true⟩).applied ≠ none := by
  exact ⟨by decide, by decide⟩

/-- C4 (amended): when the size query fails for a reason other than "not a
terminal", `resize_pty` behaves exactly as in the not-a-terminal case: it
applies the fixed fallback size to the pty, prints a diagnostic only if even
that fails, and never aborts the session (the model has no fatal outcome). -/
theorem c4_fallback_on_any_failure (env : ResizeEnv)
    (h : env.query = QueryRes.failOther) :
    resize_pty env = ⟨some defaultsize, !env.setFallbackOk⟩ := by
  cases env
  simp_all [resize_pty]

/-- C4 witness. -/
theorem c4_witness :
    resize_pty ⟨QueryRes.failOther, false, true⟩ = ⟨some defaultsize, !false⟩ :=
  c4_fallback_on_any_failure ⟨QueryRes.failOther, false, true⟩ rfl

/-- C6: when the controlling terminal's size is unavailable because it is
not a real terminal, `resize_pty` applies the fixed fallback size — 80
columns by 30 rows — to the pseudo-terminal; no outcome of `resize_pty`
fails the session. -/
theorem c6_fallback_size (env : ResizeEnv)
    (h : env.query = QueryRes.failNotTty) :
    resize_pty env = ⟨some defaultsize, !env.setFallbackOk⟩ ∧
    defaultsize.ws_col = 80 ∧ defaultsize.ws_row = 30 := by
  cases env
  simp_all [resize_pty, defaultsize]

/-- C6 witness. -/
theorem c6_witness :
    (resize_pty ⟨QueryRes.failNotTty, true, true⟩ = ⟨some defaultsize, !true⟩ ∧
    defaultsize.ws_col = 80 ∧ defaultsize.ws_row = 30) :=
  c6_fallback_size ⟨QueryRes.failNotTty, true, true⟩ rfl

/-- C7 counterexample: `deptyr -h CMD` gives neither `-s` nor `-H` and
supplies a command, yet the program prints usage and exits 0 without ever
reaching a use of `socket` — the claim's universal quantification fails. -/
theorem c7_counterexample :
    mainModel [Opt.h] ["cmd"] = MainBehavior.exitUsage0 ∧
    mainModel [Opt.h] ["cmd"] ≠ MainBehavior.attacherSend none ∧
    mainModel [Opt.h] ["cmd"] ≠ MainBehavior.headAccept none := by
  exact ⟨by decide, by decide, by decide⟩

/-- C7 (amended): for every invocation whose options are at most `-V`
(no `-s`, no `-H`, no `-h`, no unrecognized option) with a command supplied,
the program reaches the attacher branch and passes the never-assigned
`socket` variable to the descriptor send — reading an uninitialized value. -/
theorem c7_socket_uninitialized (opts : List Opt) (cmd : List String)
    (hopts : ∀ o ∈ opts, o = Opt.V) (hcmd : cmd ≠ []) :
    mainModel opts cmd = MainBehavior.attacherSend none := by
  obtain ⟨v, hv⟩ := parseOpts_allV opts ⟨false, none, false⟩ hopts
  simp [mainModel, hv, hcmd]

/-- C7 witness: `deptyr -V CMD` sends on an unassigned socket variable. -/
theorem c7_witness :
    mainModel [Opt.V] ["prog"] = MainBehavior.attacherSend none :=
  c7_socket_uninitialized [Opt.V] ["prog"] (by decide) (by decide)

/-- C10: in attacher mode, once the pty is allocated and its master sent,
the outcomes of the `open`/`dup2` calls that redirect the standard streams
are never examined: `execvp` is attempted for every combination of their
outcomes, in particular with all redirections failed (the original standard
streams still in place). -/
theorem c10_exec_regardless (env : AttachEnv)
    (h1 : env.getPtOk = true) (h2 : env.unlockOk = true)
    (h3 : env.grantOk = true) (h4 : env.sendOk = true) :
    attacher env = AttachOutcome.execAttempted (env.openInOk && env.dupInOk)
      (env.openOutOk && env.dupOutOk) (env.openOutOk && env.dupErrOk)
      env.execOk := by
  simp [attacher, h1, h2, h3, h4]

/-- C10 witness: with every `open` and `dup2` failing, `execvp` is still
attempted, with no stream redirected. -/
theorem c10_witness :
    attacher ⟨true, true, true, true, false, false, false, false, false, true⟩ =
      AttachOutcome.execAttempted false false false true :=
  c10_exec_regardless
    ⟨true, true, true, true, false, false, false, false, false, true⟩
    rfl rfl rfl rfl

end Deptyr
